import Mathlib

/-
Shallow embedding of em-cultuur/error-types (src/index.js).

The repository defines a hierarchy of error classes rooted at ErrorBase,
each with a constructor and an `asBoom` conversion to a @hapi/boom error,
plus a boundary function `toBoomError` that dispatches on the presence of
the `asBoom` capability and, for foreign errors, on the `name` field.

Modelling conventions:
- A JavaScript argument that may be omitted (`undefined`) is `Option _`;
  `none` is `undefined`.  A `new Error(m)` with `m` undefined has message
  `""`, so `ErrorBase` stores `message : String` obtained with `getD ""`.
- The external representation is the boom error's `output.payload`:
  `statusCode` (integer), `error` (the HTTP reason phrase; this plays the
  role of the spec's `kind` field), `message` (absent when the underlying
  message is empty, masked for status 500), and the `details` object the
  repository attaches with `b.output.payload.details = ...`.
- A JS object literal used as a details payload is an ordered association
  list `List (String × Option String)`; a key whose value is `undefined`
  is present with value `none`.
- A constructor body that can throw is modelled in `Except String _`;
  `Except.error` is a thrown exception.  Bodies that cannot throw are
  total functions.
-/

namespace ErrorTypes

/-- Ordered JS object of detail values; a value `none` is `undefined`. -/
abbrev Details := List (String × Option String)

/-- The `output.payload` of a @hapi/boom error, i.e. the external
representation handed to the transport layer. -/
structure BoomPayload where
  statusCode : Nat
  error : String
  message : Option String
  details : Option Details
deriving DecidableEq, Repr

/-- HTTP reason phrases as used by @hapi/boom for the status codes this
repository produces (boom falls back to "Unknown" for unlisted codes). -/
def statusPhrase (code : Nat) : String :=
  if code = 403 then "Forbidden"
  else if code = 404 then "Not Found"
  else if code = 409 then "Conflict"
  else if code = 422 then "Unprocessable Entity"
  else if code = 500 then "Internal Server Error"
  else if code = 501 then "Not Implemented"
  else "Unknown"

/-- Models @hapi/boom payload construction for `new Boom(message, (statusCode))`:
`payload.error` is the reason phrase; `payload.message` is masked to a generic
string when the status is exactly 500, and absent when the message is empty. -/
def boomPayload (status : Nat) (message : String) : BoomPayload :=
  { statusCode := status
    error := statusPhrase status
    message :=
      if status = 500 then some "An internal server error occurred"
      else if message = "" then none
      else some message
    details := none }

/-- Models `b.output.payload.details = d` on a boom error `b`. -/
def BoomPayload.withDetails (b : BoomPayload) (d : Details) : BoomPayload :=
  { b with details := some d }

/-- `Boom.badData(message)`: 422 Unprocessable Entity. -/
def Boom.badData (m : String) : BoomPayload := boomPayload 422 m

/-- `Boom.notImplemented(message)`: 501 Not Implemented. -/
def Boom.notImplemented (m : String) : BoomPayload := boomPayload 501 m

/-- `Boom.forbidden(message)`: 403 Forbidden. -/
def Boom.forbidden (m : String) : BoomPayload := boomPayload 403 m

/-- `Boom.notFound(message)`: 404 Not Found. -/
def Boom.notFound (m : String) : BoomPayload := boomPayload 404 m

/-- `Boom.conflict(message)`: 409 Conflict. -/
def Boom.conflict (m : String) : BoomPayload := boomPayload 409 m

/-- `Boom.badImplementation(message)`: 500; the payload message is masked. -/
def Boom.badImplementation (m : String) : BoomPayload := boomPayload 500 m

/-- State of `class ErrorBase extends Error`: `super(message)` stores the
message (empty when undefined) and `this.boomStatus = status` with JS
default `status = 500`. -/
structure ErrorBase where
  message : String
  boomStatus : Nat
deriving DecidableEq, Repr

/-- `constructor(message, status = 500)` of ErrorBase. -/
def ErrorBase.make (message : Option String) (status : Option Nat) : ErrorBase :=
  { message := message.getD "", boomStatus := status.getD 500 }

/-- `ErrorBase.asBoom()`: `return Boom.badData(this.message)`. -/
def ErrorBase.asBoom (e : ErrorBase) : BoomPayload := Boom.badData e.message

/-- `class ErrorNotImplemented`: sets `this.type = 'ErrorNotImplemented'`. -/
structure ErrorNotImplemented extends ErrorBase where
  type : String
deriving DecidableEq, Repr

/-- `constructor(message, status)` of ErrorNotImplemented. -/
def ErrorNotImplemented.make (message : Option String) (status : Option Nat) :
    ErrorNotImplemented :=
  { toErrorBase := ErrorBase.make message status, type := "ErrorNotImplemented" }

/-- `ErrorNotImplemented.asBoom()`: `return Boom.notImplemented(this.message)`. -/
def ErrorNotImplemented.asBoom (e : ErrorNotImplemented) : BoomPayload :=
  Boom.notImplemented e.message

/-- `class ErrorTyped`: `constructor(type, message)` calls `super(message)`
(so `boomStatus` is the default 500) and stores `this.type = type`
(`none` when the caller passed nothing). -/
structure ErrorTyped extends ErrorBase where
  type : Option String
deriving DecidableEq, Repr

/-- `constructor(type, message)` of ErrorTyped. -/
def ErrorTyped.make (type : Option String) (message : Option String) : ErrorTyped :=
  { toErrorBase := ErrorBase.make message none, type := type }

/-- `ErrorTyped.asBoom()`: `return Boom.forbidden(this.message)`. -/
def ErrorTyped.asBoom (e : ErrorTyped) : BoomPayload := Boom.forbidden e.message

/-- `class ErrorNotFound`: `constructor(field = 'no name', message = 'not found',
status)` calls `super(message)` (no status, so `boomStatus` is 500) and assigns
`this.name = field`.  The `fieldname` property read by `asBoom` is never
assigned, so it is always `undefined` (`none`). -/
structure ErrorNotFound extends ErrorBase where
  type : String
  name : String
  fieldname : Option String
deriving DecidableEq, Repr

/-- `constructor(field = 'no name', message = 'not found', status)` of
ErrorNotFound; the `status` parameter is accepted but never used (the
constructor calls `super(message)` without it). -/
def ErrorNotFound.make (field : Option String) (message : Option String)
    (_status : Option Nat) : ErrorNotFound :=
  { toErrorBase := ErrorBase.make (some (message.getD "not found")) none
    type := "ErrorNotFound"
    name := field.getD "no name"
    fieldname := none }

/-- `ErrorNotFound.asBoom()`: `Boom.notFound(this.message)` with
`details = (fieldname: this.fieldname)` — and `this.fieldname` is undefined. -/
def ErrorNotFound.asBoom (e : ErrorNotFound) : BoomPayload :=
  (Boom.notFound e.message).withDetails [("fieldname", e.fieldname)]

/-- `class ErrorDuplicate`: `constructor(fieldname = 'no name',
message = 'duplicate', status)`. -/
structure ErrorDuplicate extends ErrorBase where
  type : String
  fieldname : String
deriving DecidableEq, Repr

/-- `constructor(fieldname = 'no name', message = 'duplicate', status)` of
ErrorDuplicate. -/
def ErrorDuplicate.make (fieldname : Option String) (message : Option String)
    (status : Option Nat) : ErrorDuplicate :=
  { toErrorBase := ErrorBase.make (some (message.getD "duplicate")) status
    type := "ErrorDuplicate"
    fieldname := fieldname.getD "no name" }

/-- `ErrorDuplicate.asBoom()`: `Boom.conflict('duplicate')` with
`details = (fieldname, message)`. -/
def ErrorDuplicate.asBoom (e : ErrorDuplicate) : BoomPayload :=
  (Boom.conflict "duplicate").withDetails
    [("fieldname", some e.fieldname), ("message", some e.message)]

/-- `class ErrorAccessDenied`: `constructor(message = 'access denied', status)`. -/
structure ErrorAccessDenied extends ErrorBase where
  type : String
deriving DecidableEq, Repr

/-- `constructor(message = 'access denied', status)` of ErrorAccessDenied. -/
def ErrorAccessDenied.make (message : Option String) (status : Option Nat) :
    ErrorAccessDenied :=
  { toErrorBase := ErrorBase.make (some (message.getD "access denied")) status
    type := "ErrorAccessDenied" }

/-- `ErrorAccessDenied.asBoom()`: `Boom.forbidden(this.message)` — 403, not 401. -/
def ErrorAccessDenied.asBoom (e : ErrorAccessDenied) : BoomPayload :=
  Boom.forbidden e.message

/-- `class ErrorDocumentNotFound`: `constructor(document = '',
message = 'document not found', status)`. -/
structure ErrorDocumentNotFound extends ErrorBase where
  type : String
  document : String
deriving DecidableEq, Repr

/-- `constructor(document = '', message = 'document not found', status)` of
ErrorDocumentNotFound. -/
def ErrorDocumentNotFound.make (document : Option String) (message : Option String)
    (status : Option Nat) : ErrorDocumentNotFound :=
  { toErrorBase := ErrorBase.make (some (message.getD "document not found")) status
    type := "ErrorDocumentNotFound"
    document := document.getD "" }

/-- `ErrorDocumentNotFound.asBoom()`: `Boom.notFound(this.message)` with
`details = (document)`. -/
def ErrorDocumentNotFound.asBoom (e : ErrorDocumentNotFound) : BoomPayload :=
  (Boom.notFound e.message).withDetails [("document", some e.document)]

/-- `class ErrorFieldNotFound`: `constructor(fieldName = '', message, status)`;
when `message` is undefined it becomes the template
`field (fieldName) was not found`. -/
structure ErrorFieldNotFound extends ErrorBase where
  type : String
  fieldName : String
deriving DecidableEq, Repr

/-- `constructor(fieldName = '', message, status)` of ErrorFieldNotFound. -/
def ErrorFieldNotFound.make (fieldName : Option String) (message : Option String)
    (status : Option Nat) : ErrorFieldNotFound :=
  let f := fieldName.getD ""
  let m := match message with
    | none => "field (" ++ f ++ ") was not found"
    | some s => s
  { toErrorBase := ErrorBase.make (some m) status
    type := "ErrorFieldNotFound"
    fieldName := f }

/-- `ErrorFieldNotFound.asBoom()`: `Boom.notFound(this.message)` with
`details = (fieldName)` (capital N key, unlike the other variants). -/
def ErrorFieldNotFound.asBoom (e : ErrorFieldNotFound) : BoomPayload :=
  (Boom.notFound e.message).withDetails [("fieldName", some e.fieldName)]

/-- The `message` argument of ErrorFieldNotValid's constructor: the code
tests `message === false`, so the argument may be undefined (taking the
JS default `'data not valid'`), the boolean `false`, or a string. -/
inductive FnvMsgArg where
  | undef
  | fls
  | str (s : String)
deriving DecidableEq, Repr

/-- `class ErrorFieldNotValid`: `constructor(fieldname = '',
message = 'data not valid', status)`; when `message === false` the
error message becomes the fieldname and `this.fieldname` the sentinel
`' -- no field --'`. -/
structure ErrorFieldNotValid extends ErrorBase where
  type : String
  fieldname : String
deriving DecidableEq, Repr

/-- `constructor(fieldname = '', message = 'data not valid', status)` of
ErrorFieldNotValid. -/
def ErrorFieldNotValid.make (fieldname : Option String) (message : FnvMsgArg)
    (status : Option Nat) : ErrorFieldNotValid :=
  let f := fieldname.getD ""
  match message with
  | .fls =>
      { toErrorBase := ErrorBase.make (some f) status
        type := "ErrorFieldNotValid"
        fieldname := " -- no field --" }
  | .undef =>
      { toErrorBase := ErrorBase.make (some "data not valid") status
        type := "ErrorFieldNotValid"
        fieldname := f }
  | .str s =>
      { toErrorBase := ErrorBase.make (some s) status
        type := "ErrorFieldNotValid"
        fieldname := f }

/-- `ErrorFieldNotValid.asBoom()`: `Boom.conflict('not valid')` with
`details = (fieldname, message)`. -/
def ErrorFieldNotValid.asBoom (e : ErrorFieldNotValid) : BoomPayload :=
  (Boom.conflict "not valid").withDetails
    [("fieldname", some e.fieldname), ("message", some e.message)]

/-- `class ErrorFile`: `constructor(filename = '', message = 'file error found',
status)` stores `this.document = filename`. -/
structure ErrorFile extends ErrorBase where
  type : String
  document : String
deriving DecidableEq, Repr

/-- `constructor(filename = '', message = 'file error found', status)` of
ErrorFile. -/
def ErrorFile.make (filename : Option String) (message : Option String)
    (status : Option Nat) : ErrorFile :=
  { toErrorBase := ErrorBase.make (some (message.getD "file error found")) status
    type := "ErrorFile"
    document := filename.getD "" }

/-- `ErrorFile.asBoom()`: `Boom.notFound('file not found')` with
`details = (document, message)`. -/
def ErrorFile.asBoom (e : ErrorFile) : BoomPayload :=
  (Boom.notFound "file not found").withDetails
    [("document", some e.document), ("message", some e.message)]

/-- The message rendered by ErrorFieldNotAllowed's constructor from the field
list: `fields.length > 1` chooses the plural, `fields.join(', ')` the list. -/
def fieldsMessage (fields : List String) : String :=
  "field" ++ (if fields.length > 1 then "s" else "")
    ++ " \"" ++ String.intercalate ", " fields ++ "\" not defined"

/-- `class ErrorFieldNotAllowed`: `constructor(fields, message = false, status)`.
There is no asBoom override, so conversion falls back to ErrorBase's. -/
structure ErrorFieldNotAllowed extends ErrorBase where
  type : String
  fields : List String
deriving DecidableEq, Repr

/-- `constructor(fields, message = false, status)` of ErrorFieldNotAllowed.
`fields` has no default, and the body reads `fields.length` and
`fields.join`, so an omitted `fields` throws a TypeError (`Except.error`).
The message argument defaults to `false`; a falsy message (omitted or the
empty string) selects the templated message. -/
def ErrorFieldNotAllowed.make (fields : Option (List String))
    (message : Option String) (status : Option Nat) :
    Except String ErrorFieldNotAllowed :=
  match fields with
  | none =>
      Except.error "TypeError: Cannot read properties of undefined (reading length)"
  | some fs =>
      let m := match message with
        | some s => if s = "" then fieldsMessage fs else s
        | none => fieldsMessage fs
      Except.ok
        { toErrorBase := ErrorBase.make (some m) status
          type := "ErrorFieldNotAllowed"
          fields := fs }

/-- ErrorFieldNotAllowed has no asBoom of its own: JS method lookup finds
`ErrorBase.asBoom` on the prototype chain. -/
def ErrorFieldNotAllowed.asBoom (e : ErrorFieldNotAllowed) : BoomPayload :=
  e.toErrorBase.asBoom

/-- `class ErrorBadRequest`: constructor only sets the type discriminator;
conversion falls back to ErrorBase's. -/
structure ErrorBadRequest extends ErrorBase where
  type : String
deriving DecidableEq, Repr

/-- `constructor(message, status)` of ErrorBadRequest. -/
def ErrorBadRequest.make (message : Option String) (status : Option Nat) :
    ErrorBadRequest :=
  { toErrorBase := ErrorBase.make message status, type := "ErrorBadRequest" }

/-- Inherited `ErrorBase.asBoom` for ErrorBadRequest. -/
def ErrorBadRequest.asBoom (e : ErrorBadRequest) : BoomPayload :=
  e.toErrorBase.asBoom

/-- `class ErrorServerError`: constructor only sets the type discriminator. -/
structure ErrorServerError extends ErrorBase where
  type : String
deriving DecidableEq, Repr

/-- `constructor(message, status)` of ErrorServerError. -/
def ErrorServerError.make (message : Option String) (status : Option Nat) :
    ErrorServerError :=
  { toErrorBase := ErrorBase.make message status, type := "ErrorServerError" }

/-- Inherited `ErrorBase.asBoom` for ErrorServerError. -/
def ErrorServerError.asBoom (e : ErrorServerError) : BoomPayload :=
  e.toErrorBase.asBoom

/-- `class ErrorUnknown`: constructor only sets the type discriminator. -/
structure ErrorUnknown extends ErrorBase where
  type : String
deriving DecidableEq, Repr

/-- `constructor(message, status)` of ErrorUnknown. -/
def ErrorUnknown.make (message : Option String) (status : Option Nat) :
    ErrorUnknown :=
  { toErrorBase := ErrorBase.make message status, type := "ErrorUnknown" }

/-- Inherited `ErrorBase.asBoom` for ErrorUnknown. -/
def ErrorUnknown.asBoom (e : ErrorUnknown) : BoomPayload :=
  e.toErrorBase.asBoom

/-- One record of the aggregator, as pushed by `add(type, fieldname, message,
data)`; every component may be undefined. -/
structure ErrRecord where
  type : Option String
  fieldname : Option String
  message : Option String
  data : Option String
deriving DecidableEq, Repr

/-- The `message` argument of ErrorDataError's constructor: the code tests
`message instanceof Object`, so the argument may be undefined (taking the
JS default `'data error'`), a plain string, or a structured descriptor
object with `type`, `fieldname` and `message` properties. -/
inductive DataMsgArg where
  | undef
  | str (s : String)
  | obj (type fieldname message : Option String)
deriving DecidableEq, Repr

/-- `class ErrorDataError`: the aggregator; it keeps an append-only
`this.errors` list and sets `this.name = 'ErrorDataError'`.  It has no
asBoom override, so conversion falls back to ErrorBase's. -/
structure ErrorDataError extends ErrorBase where
  errors : List ErrRecord
  name : String
deriving DecidableEq, Repr

/-- `add(type, fieldname, message, data)`: pushes one record; never fails. -/
def ErrorDataError.add (e : ErrorDataError) (type fieldname message data : Option String) :
    ErrorDataError :=
  { e with errors := e.errors ++ [⟨type, fieldname, message, data⟩] }

/-- `constructor(message = 'data error', status)` of ErrorDataError: a
descriptor object seeds one record and uses status (default 401); any other
argument becomes the top-level message with status forced to 401. -/
def ErrorDataError.make (message : DataMsgArg) (status : Option Nat) :
    ErrorDataError :=
  match message with
  | .obj t f m =>
      ErrorDataError.add
        { toErrorBase := { message := "data error", boomStatus := status.getD 401 }
          errors := []
          name := "ErrorDataError" } t f m none
  | .str s =>
      { toErrorBase := { message := s, boomStatus := 401 }
        errors := []
        name := "ErrorDataError" }
  | .undef =>
      { toErrorBase := { message := "data error", boomStatus := 401 }
        errors := []
        name := "ErrorDataError" }

/-- `get length()`: `return this.errors.length`. -/
def ErrorDataError.length (e : ErrorDataError) : Nat := e.errors.length

/-- `error(index)`: the body is `return this.errors[index]`; JS array
indexing never throws, an out-of-range index evaluates to `undefined`
(`Except.ok none`).  The `Except` layer records that the method body
completes normally rather than raising a condition. -/
def ErrorDataError.error (e : ErrorDataError) (index : Nat) :
    Except String (Option ErrRecord) :=
  Except.ok (e.errors.get? index)

/-- ErrorDataError has no asBoom of its own: JS method lookup finds
`ErrorBase.asBoom` on the prototype chain, which ignores `boomStatus`,
`name` and `errors`. -/
def ErrorDataError.asBoom (e : ErrorDataError) : BoomPayload :=
  e.toErrorBase.asBoom

/-- A raised object that does not implement the conversion capability
(`err.asBoom` is undefined): only its conventional `name` discriminator,
`path` and `message` matter to the classifier. -/
structure ForeignError where
  name : Option String
  path : Option String
  message : Option String
deriving DecidableEq, Repr

/-- Any value that can reach `toBoomError`: one of the domain variants
(which all have `asBoom`, directly or inherited) or a foreign error. -/
inductive Raised where
  | base (e : ErrorBase)
  | notImplemented (e : ErrorNotImplemented)
  | typed (e : ErrorTyped)
  | notFound (e : ErrorNotFound)
  | duplicate (e : ErrorDuplicate)
  | accessDenied (e : ErrorAccessDenied)
  | documentNotFound (e : ErrorDocumentNotFound)
  | fieldNotFound (e : ErrorFieldNotFound)
  | fieldNotValid (e : ErrorFieldNotValid)
  | file (e : ErrorFile)
  | fieldNotAllowed (e : ErrorFieldNotAllowed)
  | badRequest (e : ErrorBadRequest)
  | serverError (e : ErrorServerError)
  | unknown (e : ErrorUnknown)
  | dataError (e : ErrorDataError)
  | foreign (f : ForeignError)
deriving DecidableEq, Repr

/-- Result of the boundary conversion: the boom payload plus the message
printed by `console.error('[Error undefined]:', err.message)` when the
default branch of the classifier runs (`none` when nothing was logged). -/
structure BoundaryResult where
  payload : BoomPayload
  logged : Option (Option String)
deriving DecidableEq, Repr

/-- `function toBoomError(err, request)`: when `err.asBoom` exists it is
invoked (every ErrorBase subclass has one, inherited if not overridden);
otherwise the classifier switches on `err.name`: the `'CastError'` case
produces `Boom.conflict('not valid')` with `details = (fieldname: err.path,
message: err.message)`, and the default case logs the message and returns
`Boom.badImplementation(err.message)`. -/
def toBoomError (err : Raised) : BoundaryResult :=
  match err with
  | .base e => ⟨e.asBoom, none⟩
  | .notImplemented e => ⟨e.asBoom, none⟩
  | .typed e => ⟨e.asBoom, none⟩
  | .notFound e => ⟨e.asBoom, none⟩
  | .duplicate e => ⟨e.asBoom, none⟩
  | .accessDenied e => ⟨e.asBoom, none⟩
  | .documentNotFound e => ⟨e.asBoom, none⟩
  | .fieldNotFound e => ⟨e.asBoom, none⟩
  | .fieldNotValid e => ⟨e.asBoom, none⟩
  | .file e => ⟨e.asBoom, none⟩
  | .fieldNotAllowed e => ⟨e.asBoom, none⟩
  | .badRequest e => ⟨e.asBoom, none⟩
  | .serverError e => ⟨e.asBoom, none⟩
  | .unknown e => ⟨e.asBoom, none⟩
  | .dataError e => ⟨e.asBoom, none⟩
  | .foreign f =>
      if f.name = some "CastError" then
        ⟨(Boom.conflict "not valid").withDetails
          [("fieldname", f.path), ("message", f.message)], none⟩
      else
        ⟨Boom.badImplementation (f.message.getD ""), some f.message⟩

/-- Claim C1, counterexample: constructing NotImplemented with only its message
and converting it yields statusCode 501, not the documented default 500, and
the representation's kind field is the HTTP reason phrase, not the variant's
documented kind "NotImplemented". -/
theorem C1_cex :
    (toBoomError (Raised.notImplemented
      (ErrorNotImplemented.make (some "nope") none))).payload.statusCode = 501
    ∧ (501 : Nat) ≠ 500
    ∧ (toBoomError (Raised.notImplemented
        (ErrorNotImplemented.make (some "nope") none))).payload.error = "Not Implemented"
    ∧ "Not Implemented" ≠ "NotImplemented" :=
  ⟨rfl, by decide, rfl, by decide⟩

/-- Claim C1, amended: constructing each variant with only its required
arguments and converting it yields statusCode 501 for NotImplemented, 404 for
NotFound, 409 for Duplicate, 403 for AccessDenied, 404 for DocumentNotFound,
404 for FieldNotFound, 409 for FieldNotValid, 422 for FieldsNotAllowed, 404
for File, 422 for BadRequest, 422 for ServerError, 422 for Unknown and 403
for Typed, and the representation's kind field is in each case the HTTP
reason phrase of that status, not the variant's discriminator. -/
theorem C1_statuses (m t : Option String) (fs : List String) :
    ((toBoomError (Raised.notImplemented
        (ErrorNotImplemented.make m none))).payload.statusCode = 501
      ∧ (toBoomError (Raised.notImplemented
          (ErrorNotImplemented.make m none))).payload.error = "Not Implemented")
    ∧ ((toBoomError (Raised.notFound
        (ErrorNotFound.make none none none))).payload.statusCode = 404
      ∧ (toBoomError (Raised.notFound
          (ErrorNotFound.make none none none))).payload.error = "Not Found")
    ∧ ((toBoomError (Raised.duplicate
        (ErrorDuplicate.make none none none))).payload.statusCode = 409
      ∧ (toBoomError (Raised.duplicate
          (ErrorDuplicate.make none none none))).payload.error = "Conflict")
    ∧ ((toBoomError (Raised.accessDenied
        (ErrorAccessDenied.make m none))).payload.statusCode = 403
      ∧ (toBoomError (Raised.accessDenied
          (ErrorAccessDenied.make m none))).payload.error = "Forbidden")
    ∧ ((toBoomError (Raised.documentNotFound
        (ErrorDocumentNotFound.make none none none))).payload.statusCode = 404
      ∧ (toBoomError (Raised.documentNotFound
          (ErrorDocumentNotFound.make none none none))).payload.error = "Not Found")
    ∧ ((toBoomError (Raised.fieldNotFound
        (ErrorFieldNotFound.make none none none))).payload.statusCode = 404
      ∧ (toBoomError (Raised.fieldNotFound
          (ErrorFieldNotFound.make none none none))).payload.error = "Not Found")
    ∧ ((toBoomError (Raised.fieldNotValid
        (ErrorFieldNotValid.make none FnvMsgArg.undef none))).payload.statusCode = 409
      ∧ (toBoomError (Raised.fieldNotValid
          (ErrorFieldNotValid.make none FnvMsgArg.undef none))).payload.error = "Conflict")
    ∧ ((ErrorFieldNotAllowed.make (some fs) none none).map
        (fun e => (toBoomError (Raised.fieldNotAllowed e)).payload.statusCode)
          = Except.ok 422
      ∧ (ErrorFieldNotAllowed.make (some fs) none none).map
          (fun e => (toBoomError (Raised.fieldNotAllowed e)).payload.error)
            = Except.ok "Unprocessable Entity")
    ∧ ((toBoomError (Raised.file
        (ErrorFile.make none none none))).payload.statusCode = 404
      ∧ (toBoomError (Raised.file
          (ErrorFile.make none none none))).payload.error = "Not Found")
    ∧ ((toBoomError (Raised.badRequest
        (ErrorBadRequest.make m none))).payload.statusCode = 422
      ∧ (toBoomError (Raised.badRequest
          (ErrorBadRequest.make m none))).payload.error = "Unprocessable Entity")
    ∧ ((toBoomError (Raised.serverError
        (ErrorServerError.make m none))).payload.statusCode = 422
      ∧ (toBoomError (Raised.serverError
          (ErrorServerError.make m none))).payload.error = "Unprocessable Entity")
    ∧ ((toBoomError (Raised.unknown
        (ErrorUnknown.make m none))).payload.statusCode = 422
      ∧ (toBoomError (Raised.unknown
          (ErrorUnknown.make m none))).payload.error = "Unprocessable Entity")
    ∧ ((toBoomError (Raised.typed
        (ErrorTyped.make t m))).payload.statusCode = 403
      ∧ (toBoomError (Raised.typed
          (ErrorTyped.make t m))).payload.error = "Forbidden") :=
  ⟨⟨rfl, rfl⟩, ⟨rfl, rfl⟩, ⟨rfl, rfl⟩, ⟨rfl, rfl⟩, ⟨rfl, rfl⟩, ⟨rfl, rfl⟩,
   ⟨rfl, rfl⟩, ⟨rfl, rfl⟩, ⟨rfl, rfl⟩, ⟨rfl, rfl⟩, ⟨rfl, rfl⟩, ⟨rfl, rfl⟩,
   ⟨rfl, rfl⟩⟩

/-- Claim C2, counterexample: converting an aggregator (here one constructed
with no arguments) yields statusCode 422, not 401, its kind field is the
reason phrase "Unprocessable Entity", not "DataError", and it carries no
details at all. -/
theorem C2_cex :
    (toBoomError (Raised.dataError
      (ErrorDataError.make DataMsgArg.undef none))).payload.statusCode = 422
    ∧ (422 : Nat) ≠ 401
    ∧ (toBoomError (Raised.dataError
        (ErrorDataError.make DataMsgArg.undef none))).payload.error
          = "Unprocessable Entity"
    ∧ "Unprocessable Entity" ≠ "DataError"
    ∧ (toBoomError (Raised.dataError
        (ErrorDataError.make DataMsgArg.undef none))).payload.details = none :=
  ⟨rfl, by decide, rfl, by decide, rfl⟩

/-- Claim C2, amended: every aggregator instance, however constructed and
however many records it holds, converts through the inherited base conversion
to statusCode 422 with kind "Unprocessable Entity", its own top-level message,
and no details — the records (and the 401 stored at construction) are not
reflected in the representation. -/
theorem C2_conversion (e : ErrorDataError) :
    (toBoomError (Raised.dataError e)).payload.statusCode = 422
    ∧ (toBoomError (Raised.dataError e)).payload.error = "Unprocessable Entity"
    ∧ (toBoomError (Raised.dataError e)).payload.message
        = (if e.message = "" then none else some e.message)
    ∧ (toBoomError (Raised.dataError e)).payload.details = none :=
  ⟨rfl, rfl, rfl, rfl⟩

/-- Claim C3: evaluating the code at the failing input `new ErrorNotFound()`:
the message is the documented "not found", but the details carry the key
"fieldname" with value undefined — the constructor assigns `this.name` while
the conversion reads `this.fieldname`, which is never set — so the documented
sentinel "no name" never reaches the representation. -/
theorem C3_actual :
    (toBoomError (Raised.notFound
      (ErrorNotFound.make none none none))).payload.message = some "not found"
    ∧ (toBoomError (Raised.notFound
        (ErrorNotFound.make none none none))).payload.details
          = some [("fieldname", none)]
    ∧ (ErrorNotFound.make none none none).name = "no name" :=
  ⟨rfl, rfl, rfl⟩

/-- Claim C4, counterexample: the CastError branch stores the path under the
key "fieldname" (all lowercase), not "fieldName": at path "age" and message
"bad type" the details hold no "fieldName" key. -/
theorem C4_cex :
    (toBoomError (Raised.foreign
      ⟨some "CastError", some "age", some "bad type"⟩)).payload.details
        = some [("fieldname", some "age"), ("message", some "bad type")]
    ∧ ((toBoomError (Raised.foreign
        ⟨some "CastError", some "age", some "bad type"⟩)).payload.details.getD
          []).lookup "fieldName" = none :=
  ⟨rfl, by decide⟩

/-- Claim C4, amended: a foreign object with name "CastError", any path p and
any message m converts to a 409 Conflict representation with message
"not valid" and details equal to the object with key "fieldname" (lowercase)
bound to p and key "message" bound to m; nothing is logged. -/
theorem C4_castError (p m : Option String) :
    (toBoomError (Raised.foreign ⟨some "CastError", p, m⟩)).payload.statusCode = 409
    ∧ (toBoomError (Raised.foreign ⟨some "CastError", p, m⟩)).payload.error = "Conflict"
    ∧ (toBoomError (Raised.foreign ⟨some "CastError", p, m⟩)).payload.message
        = some "not valid"
    ∧ (toBoomError (Raised.foreign ⟨some "CastError", p, m⟩)).payload.details
        = some [("fieldname", p), ("message", m)]
    ∧ (toBoomError (Raised.foreign ⟨some "CastError", p, m⟩)).logged = none :=
  ⟨rfl, rfl, rfl, rfl, rfl⟩

/-- Claim C5, counterexample: an unclassified foreign error carrying the
message "secret detail" converts to a 500 representation whose message is the
generic "An internal server error occurred" — the original message is not in
the representation (it only goes to the diagnostic log). -/
theorem C5_cex :
    (toBoomError (Raised.foreign
      ⟨none, none, some "secret detail"⟩)).payload.statusCode = 500
    ∧ (toBoomError (Raised.foreign
        ⟨none, none, some "secret detail"⟩)).payload.message
          = some "An internal server error occurred"
    ∧ (toBoomError (Raised.foreign
        ⟨none, none, some "secret detail"⟩)).payload.message ≠ some "secret detail"
    ∧ (toBoomError (Raised.foreign
        ⟨none, none, some "secret detail"⟩)).logged = some (some "secret detail") :=
  ⟨rfl, rfl, by decide, rfl⟩

/-- Claim C5, amended: every foreign object whose discriminator is missing or
unrecognized converts to a 500-class representation with the generic message
"An internal server error occurred" (the original message is not exposed) and
no details, and the original message is emitted on the diagnostic channel. -/
theorem C5_unclassified (name path m : Option String)
    (h : name ≠ some "CastError") :
    toBoomError (Raised.foreign ⟨name, path, m⟩)
      = ⟨{ statusCode := 500, error := "Internal Server Error",
           message := some "An internal server error occurred",
           details := none }, some m⟩ := by
  simp [toBoomError, h, Boom.badImplementation, boomPayload, statusPhrase]

/-- Witness for C5_unclassified at a concrete unclassified foreign error. -/
theorem C5_unclassified_witness :
    ((none : Option String) ≠ some "CastError")
    ∧ toBoomError (Raised.foreign ⟨none, none, some "oops"⟩)
      = ⟨{ statusCode := 500, error := "Internal Server Error",
           message := some "An internal server error occurred",
           details := none }, some (some "oops")⟩ :=
  ⟨by decide, C5_unclassified none none (some "oops") (by decide)⟩

/-- Claim C6, counterexample: after two adds on an initially empty aggregator,
reading position 2 does not fail with an out-of-range condition — the method
body returns normally with the value undefined. -/
theorem C6_cex :
    (((ErrorDataError.make DataMsgArg.undef none).add
        (some "k1") (some "f1") (some "m1") none).add
        (some "k2") (some "f2") (some "m2") none).error 2 = Except.ok none :=
  rfl

/-- Claim C6, amended: after add(k1,f1,m1) then add(k2,f2,m2) on an initially
empty aggregator, length equals 2 and error(0) returns the first appended
record unchanged; error(2) returns normally with undefined (no record) rather
than failing with an out-of-range condition. -/
theorem C6_aggregator (k1 f1 m1 k2 f2 m2 : Option String) :
    (((ErrorDataError.make DataMsgArg.undef none).add k1 f1 m1 none).add
        k2 f2 m2 none).length = 2
    ∧ (((ErrorDataError.make DataMsgArg.undef none).add k1 f1 m1 none).add
        k2 f2 m2 none).error 0 = Except.ok (some ⟨k1, f1, m1, none⟩)
    ∧ (((ErrorDataError.make DataMsgArg.undef none).add k1 f1 m1 none).add
        k2 f2 m2 none).error 2 = Except.ok none :=
  ⟨rfl, rfl, rfl⟩

/-- Claim C7, counterexample: constructing FieldsNotAllowed with its fields
argument omitted throws a TypeError (the constructor reads `fields.length`
on undefined) instead of substituting a sentinel. -/
theorem C7_cex :
    ErrorFieldNotAllowed.make none none none
      = Except.error
          "TypeError: Cannot read properties of undefined (reading length)" :=
  rfl

/-- Claim C7, amended: every variant with structured fields except
FieldsNotAllowed substitutes its documented sentinel when the field is
omitted ("no name" for NotFound's field and Duplicate's fieldname, the empty
string for DocumentNotFound's document, FieldNotFound's fieldName,
FieldNotValid's fieldname and File's filename) and the construction cannot
throw; FieldsNotAllowed alone throws a TypeError when its fields argument is
omitted. -/
theorem C7_sentinels :
    (ErrorNotFound.make none none none).name = "no name"
    ∧ (ErrorDuplicate.make none none none).fieldname = "no name"
    ∧ (ErrorDocumentNotFound.make none none none).document = ""
    ∧ (ErrorFieldNotFound.make none none none).fieldName = ""
    ∧ (ErrorFieldNotFound.make none none none).message = "field () was not found"
    ∧ (ErrorFieldNotValid.make none FnvMsgArg.undef none).fieldname = ""
    ∧ (ErrorFile.make none none none).document = ""
    ∧ (ErrorFieldNotAllowed.make none none none).isOk = false :=
  ⟨rfl, rfl, rfl, rfl, rfl, rfl, rfl, rfl⟩

/-- Claim C8, counterexample: FieldsNotAllowed with an empty field list
renders the singular message `field "" not defined`, not the claimed
`fields "" not defined` (the plural requires more than one field). -/
theorem C8_cex :
    (ErrorFieldNotAllowed.make (some []) none none).map (fun e => e.message)
      = Except.ok "field \"\" not defined"
    ∧ "field \"\" not defined" ≠ "fields \"\" not defined" :=
  ⟨rfl, by decide⟩

/-- Claim C8, amended: FieldsNotAllowed constructed with ["a","b"] and no
explicit message renders `fields "a, b" not defined` — both names joined and
the pluralized "fields" — and constructed with an empty list it renders the
well-formed singular message `field "" not defined` without crashing. -/
theorem C8_messages :
    (ErrorFieldNotAllowed.make (some ["a", "b"]) none none).map (fun e => e.message)
      = Except.ok "fields \"a, b\" not defined"
    ∧ (ErrorFieldNotAllowed.make (some []) none none).map (fun e => e.message)
      = Except.ok "field \"\" not defined" :=
  ⟨rfl, rfl⟩

/-- Claim C9: for every message and every constructor-supplied status,
converting an AccessDenied instance yields statusCode 403 — the conversion
overrides whatever status was stored at construction. -/
theorem C9_accessDenied (m : Option String) (s : Option Nat) :
    (toBoomError (Raised.accessDenied
      (ErrorAccessDenied.make m s))).payload.statusCode = 403
    ∧ (toBoomError (Raised.accessDenied
        (ErrorAccessDenied.make m s))).payload.error = "Forbidden" :=
  ⟨rfl, rfl⟩

/-- Claim C10: for every fieldname f, constructing FieldNotValid with message
exactly the boolean false yields an instance whose message is f, converting to
statusCode 409 with details (fieldname: " -- no field --", message: f); with a
string message s the instance's message is s and details.fieldname is f; with
the message omitted the message defaults to "data not valid" and
details.fieldname is f. -/
theorem C10_fieldNotValid (f s : String) :
    (ErrorFieldNotValid.make (some f) FnvMsgArg.fls none).message = f
    ∧ (toBoomError (Raised.fieldNotValid
        (ErrorFieldNotValid.make (some f) FnvMsgArg.fls none))).payload.statusCode = 409
    ∧ (toBoomError (Raised.fieldNotValid
        (ErrorFieldNotValid.make (some f) FnvMsgArg.fls none))).payload.details
          = some [("fieldname", some " -- no field --"), ("message", some f)]
    ∧ (ErrorFieldNotValid.make (some f) (FnvMsgArg.str s) none).message = s
    ∧ (toBoomError (Raised.fieldNotValid
        (ErrorFieldNotValid.make (some f) (FnvMsgArg.str s) none))).payload.details
          = some [("fieldname", some f), ("message", some s)]
    ∧ (ErrorFieldNotValid.make (some f) FnvMsgArg.undef none).message = "data not valid"
    ∧ (toBoomError (Raised.fieldNotValid
        (ErrorFieldNotValid.make (some f) FnvMsgArg.undef none))).payload.details
          = some [("fieldname", some f), ("message", some "data not valid")] :=
  ⟨rfl, rfl, rfl, rfl, rfl, rfl, rfl⟩

end ErrorTypes
